import Mathlib

/-!
# Audio forwarding (app/src/audio.c)

A shallow embedding of `audio.c`: the forwarding lifecycle
(`audio_forwarding_start`, `audio_forwarding_stop`), the device selection
(`open_accessory_audio_input`) and the stream callback
(`audio_input_callback`).

The collaborators the file calls (SDL, the AOA module, adb) are external.
Each call is recorded as an `Event` in a call log, together with the value it
returned when the code branches on it; the values returned come from an
environment `Env` that is a parameter of every function. The logging calls
(`LOGE`, `LOGW`, `LOGI`, `LOGD`, `LOGC`) have no effect on the control flow and
are left out of the log.
-/

namespace Audio

/-- The sample format constant `AUDIO_S16LSB` of SDL2 (signed 16-bit,
little-endian). -/
def AUDIO_S16LSB : Nat := 0x8010

/-- The flag `SDL_INIT_AUDIO` of SDL2. -/
def SDL_INIT_AUDIO : Nat := 0x10

/-- The functions of `audio.c` that can be registered as an SDL audio
callback. -/
inductive Callback where
  | audio_input_callback
  deriving DecidableEq, Repr

/-- The fields of `SDL_AudioSpec` that `audio.c` writes, the remaining ones
being cleared by `SDL_zero`. `userdata` is the address of the player, `none`
standing for the null pointer. -/
structure SDL_AudioSpec where
  freq : Int
  format : Nat
  channels : Nat
  silence : Nat
  samples : Nat
  size : Nat
  callback : Option Callback
  userdata : Option Nat
  deriving DecidableEq, Repr

/-- Result of `SDL_zero(*spec)`: every field cleared. -/
def SDL_zero : SDL_AudioSpec :=
  { freq := 0, format := 0, channels := 0, silence := 0, samples := 0, size := 0,
    callback := none, userdata := none }

/-- Embedding of `init_audio_spec`: clears the spec, then sets the stream format. -/
def init_audio_spec : SDL_AudioSpec :=
  let spec := SDL_zero
  let spec := { spec with freq := 44100 }
  let spec := { spec with format := AUDIO_S16LSB }
  let spec := { spec with channels := 2 }
  let spec := { spec with samples := 2048 }
  spec

/-- Modelled from the spec: the declaration of `struct audio_player` (in
`audio.h`) is not among the sources. The fields are the ones `audio.c`
accesses, which are the ones of the spec's AudioPlayer: the serial (`none` is
the null pointer), the two device handles (0 is no device) and the value of
the atomic gate. `addr` is the address of the structure, which the code passes
on as callback user data. -/
structure audio_player where
  addr : Nat
  serial : Option String
  input_device : Nat
  output_device : Nat
  output_playing : Int
  deriving DecidableEq, Repr

/-- One call to a collaborator, with the arguments passed and, where the
code looks at it, the value returned. -/
inductive Event where
  /-- The call `aoa_init()`. -/
  | aoa_init (ret : Bool)
  /-- The call `aoa_exit()`. -/
  | aoa_exit
  /-- The call `adb_read_serialno(NULL, serialno, sizeof(serialno))`. -/
  | adb_read_serialno (len : Nat) (ret : Int)
  /-- The call `SDL_strdup(serial)`, returning the copy or null. -/
  | SDL_strdup (s : String) (ret : Option String)
  /-- The call `SDL_free(player->serial)`. -/
  | SDL_free (s : Option String)
  /-- The call `aoa_forward_audio(serial, enable)`. -/
  | aoa_forward_audio (serial : Option String) (enable : Bool) (ret : Bool)
  /-- The call `SDL_InitSubSystem(flags)`. -/
  | SDL_InitSubSystem (flags : Nat) (ret : Int)
  /-- The call `SDL_Delay(ms)`. -/
  | SDL_Delay (ms : Nat)
  /-- The call `SDL_GetNumAudioDevices(iscapture)`. -/
  | SDL_GetNumAudioDevices (iscapture : Nat) (ret : Int)
  /-- The call `SDL_GetAudioDeviceName(index, iscapture)`. -/
  | SDL_GetAudioDeviceName (index : Int) (iscapture : Nat) (ret : Option String)
  /-- The call `SDL_OpenAudioDevice(device, iscapture, &spec, NULL, 0)`. -/
  | SDL_OpenAudioDevice (device : Option String) (iscapture : Nat)
      (spec : SDL_AudioSpec) (ret : Nat)
  /-- The call `SDL_CloseAudioDevice(dev)`. -/
  | SDL_CloseAudioDevice (dev : Nat)
  /-- The call `SDL_PauseAudioDevice(dev, pause_on)`. -/
  | SDL_PauseAudioDevice (dev : Nat) (pause_on : Nat)
  /-- The call `SDL_QueueAudio(dev, stream, len)`. -/
  | SDL_QueueAudio (dev : Nat) (stream : List Nat) (ret : Int)
  /-- The call `SDL_AtomicSet(&player->output_playing, v)`. -/
  | SDL_AtomicSet (v : Int)
  /-- The call `SDL_AtomicCAS(&player->output_playing, oldval, newval)`. -/
  | SDL_AtomicCAS (oldval newval : Int) (ret : Bool)
  deriving DecidableEq, Repr

/-- What the collaborators answer during one call of
`audio_forwarding_start`. -/
structure Env where
  /-- Result of `aoa_init()`. -/
  aoa_init : Bool
  /-- Value returned by `adb_read_serialno`. -/
  serialno_ret : Int
  /-- Content of the buffer `serialno` after `adb_read_serialno`. -/
  serialno_buf : String
  /-- Whether `SDL_strdup` can allocate the copy. -/
  strdup_ok : Bool
  /-- Result of `aoa_forward_audio(serial, SDL_TRUE)`. -/
  forward_enable : Bool
  /-- Value returned by `SDL_InitSubSystem`. -/
  init_subsystem : Int
  /-- Handle returned when the output device is opened, 0 on failure. -/
  open_output : Nat
  /-- Value returned by `SDL_GetNumAudioDevices(1)`. -/
  num_inputs : Int
  /-- Answer of `SDL_GetAudioDeviceName(index, 1)`. -/
  device_name : Int → Option String
  /-- Handle returned when the input device is opened, 0 on failure. -/
  open_input : Nat
  /-- Result of `aoa_forward_audio(serial, SDL_FALSE)`. -/
  forward_disable : Bool

/-- Embedding of `sdl_audio_init`: fails when `SDL_InitSubSystem` returns non-zero. -/
def sdl_audio_init (env : Env) : Bool × List Event :=
  let r := env.init_subsystem
  if r ≠ 0 then
    (false, [Event.SDL_InitSubSystem SDL_INIT_AUDIO r])
  else
    (true, [Event.SDL_InitSubSystem SDL_INIT_AUDIO r])

/-- Embedding of `audio_player_init`: stores a copy of the serial, fails when the copy is
null. -/
def audio_player_init (env : Env) (player : audio_player) (serial : String) :
    Bool × audio_player × List Event :=
  let copy : Option String := if env.strdup_ok then some serial else none
  let player := { player with serial := copy }
  (player.serial.isSome, player, [Event.SDL_strdup serial copy])

/-- Embedding of `audio_player_destroy`: frees the serial; the field keeps its value. -/
def audio_player_destroy (player : audio_player) : List Event :=
  [Event.SDL_free player.serial]

/-- Semantics of `SDL_AtomicCAS(&a, oldval, newval)` on the value `a`: the success flag
and the value afterwards. -/
def SDL_AtomicCAS (a oldval newval : Int) : Bool × Int :=
  if a = oldval then (true, newval) else (false, a)

/-- Embedding of `audio_input_callback`: queues the chunk on the output device and, when
that succeeded and the gate was 0, sets the gate and unpauses the output.
`queue_ret` is the value `SDL_QueueAudio` returns. -/
def audio_input_callback (player : audio_player) (stream : List Nat) (queue_ret : Int) :
    audio_player × List Event :=
  let t := [Event.SDL_QueueAudio player.output_device stream queue_ret]
  if queue_ret = 0 then
    let cas := SDL_AtomicCAS player.output_playing 0 1
    let player := { player with output_playing := cas.2 }
    let t := t ++ [Event.SDL_AtomicCAS 0 1 cas.1]
    if cas.1 then
      (player, t ++ [Event.SDL_PauseAudioDevice player.output_device 0])
    else
      (player, t)
  else
    (player, t)

/-- Embedding of `open_accessory_audio_input`: opens the last enumerated capture device,
or returns 0 when the count is 0. The count is a C `int`; SDL returns a count
of at least -1, so that `count - 1` does not overflow. -/
def open_accessory_audio_input (env : Env) (player : audio_player) : Nat × List Event :=
  let count := env.num_inputs
  let t := [Event.SDL_GetNumAudioDevices 1 count]
  if count = 0 then
    (0, t)
  else
    let selected_name := env.device_name (count - 1)
    let t := t ++ [Event.SDL_GetAudioDeviceName (count - 1) 1 selected_name]
    let spec := init_audio_spec
    let spec := { spec with callback := some Callback.audio_input_callback }
    let spec := { spec with userdata := some player.addr }
    let r := env.open_input
    (r, t ++ [Event.SDL_OpenAudioDevice selected_name 1 spec r])

/-- Embedding of `open_default_audio_output`: opens the default playback device. -/
def open_default_audio_output (env : Env) : Nat × List Event :=
  let spec := init_audio_spec
  let r := env.open_output
  (r, [Event.SDL_OpenAudioDevice none 0 spec r])

/-- Embedding of `audio_player_open`: opens the output, then the input (closing the
output again when the input cannot be opened), then resets the gate. -/
def audio_player_open (env : Env) (player : audio_player) :
    Bool × audio_player × List Event :=
  let out := open_default_audio_output env
  let player := { player with output_device := out.1 }
  let t := out.2
  if player.output_device = 0 then
    (false, player, t)
  else
    let inp := open_accessory_audio_input env player
    let player := { player with input_device := inp.1 }
    let t := t ++ inp.2
    if player.input_device = 0 then
      (false, player, t ++ [Event.SDL_CloseAudioDevice player.output_device])
    else
      let player := { player with output_playing := 0 }
      (true, player, t ++ [Event.SDL_AtomicSet 0])

/-- Embedding of `audio_player_close`: closes the input, then the output. -/
def audio_player_close (player : audio_player) : List Event :=
  [Event.SDL_CloseAudioDevice player.input_device,
   Event.SDL_CloseAudioDevice player.output_device]

/-- The code from the label `error_aoa_exit` on. -/
def error_aoa_exit : List Event :=
  [Event.aoa_exit]

/-- The code from the label `error_destroy_player` on. -/
def error_destroy_player (player : audio_player) : List Event :=
  audio_player_destroy player ++ error_aoa_exit

/-- The code from the label `error_disable_audio_forwarding` on; `serial` is
the local variable of `audio_forwarding_start`. -/
def error_disable_audio_forwarding (env : Env) (player : audio_player) (serial : String) :
    List Event :=
  [Event.aoa_forward_audio (some serial) false env.forward_disable]
    ++ error_destroy_player player

/-- The size of the local buffer `serialno`. -/
def SERIALNO_SIZE : Nat := 128

/-- The serial resolution of `audio_forwarding_start` (the block on the
local `serialno`): the caller's serial when there is one, otherwise the buffer
filled by `adb_read_serialno`, `none` standing for the jump to
`error_aoa_exit`; with the calls made. -/
def resolve_serial (env : Env) (serial : Option String) : Option String × List Event :=
  match serial with
  | some s => (some s, [])
  | none =>
    let r := env.serialno_ret
    let t := [Event.adb_read_serialno SERIALNO_SIZE r]
    if r ≤ 0 then (none, t) else (some env.serialno_buf, t)

/-- Embedding of `audio_forwarding_start`: the result, the player afterwards and the
calls made, in order. `serial` is `none` for a null pointer. -/
def audio_forwarding_start (env : Env) (player : audio_player) (serial : Option String) :
    Bool × audio_player × List Event :=
  let t := [Event.aoa_init env.aoa_init]
  if !env.aoa_init then
    (false, player, t)
  else
    let res := resolve_serial env serial
    let t := t ++ res.2
    match res.1 with
    | none => (false, player, t ++ error_aoa_exit)
    | some serial =>
      let init := audio_player_init env player serial
      let player := init.2.1
      let t := t ++ init.2.2
      if !init.1 then
        (false, player, t ++ error_aoa_exit)
      else
        let en := env.forward_enable
        let t := t ++ [Event.aoa_forward_audio player.serial true en]
        if !en then
          (false, player, t ++ error_destroy_player player)
        else
          let si := sdl_audio_init env
          let t := t ++ si.2
          if !si.1 then
            (false, player, t ++ error_disable_audio_forwarding env player serial)
          else
            let t := t ++ [Event.SDL_Delay 2000]
            let op := audio_player_open env player
            let player := op.2.1
            let t := t ++ op.2.2
            if !op.1 then
              (false, player, t ++ error_disable_audio_forwarding env player serial)
            else
              let t := t ++ [Event.SDL_PauseAudioDevice player.input_device 0]
              (true, player, t)

/-- Embedding of `audio_forwarding_stop`: the calls made, in order. `disable_ret` is the
result of `aoa_forward_audio(player->serial, SDL_FALSE)`. -/
def audio_forwarding_stop (disable_ret : Bool) (player : audio_player) : List Event :=
  audio_player_close player
    ++ [Event.aoa_forward_audio player.serial false disable_ret]
    ++ [Event.aoa_exit]
    ++ audio_player_destroy player

/-! ## Observations on a call log -/

/-- The device handles open after the calls of a log, starting from the
handles `acc`: a successful `SDL_OpenAudioDevice` adds the handle it returned,
`SDL_CloseAudioDevice` removes the handle it is given. -/
def open_handles_from : List Nat → List Event → List Nat
  | acc, [] => acc
  | acc, Event.SDL_OpenAudioDevice _ _ _ ret :: t =>
    open_handles_from (if ret = 0 then acc else acc ++ [ret]) t
  | acc, Event.SDL_CloseAudioDevice dev :: t =>
    open_handles_from (acc.erase dev) t
  | acc, _ :: t => open_handles_from acc t

/-- The device handles opened by the calls of a log and not closed by them. -/
def open_handles (t : List Event) : List Nat :=
  open_handles_from [] t

/-- Accessory-audio mode after the calls of a log, starting from `mode`:
switched on by a successful enable, switched off by a successful disable. -/
def accessory_audio_from : Bool → List Event → Bool
  | mode, [] => mode
  | _, Event.aoa_forward_audio _ enable true :: t => accessory_audio_from enable t
  | mode, _ :: t => accessory_audio_from mode t

/-- Accessory-audio mode after the calls of a log, the mode being off
before them. -/
def accessory_audio (t : List Event) : Bool :=
  accessory_audio_from false t

/-- Whether an event is a request to open an audio device. -/
def Event.is_open : Event → Bool
  | Event.SDL_OpenAudioDevice _ _ _ _ => true
  | _ => false

/-- Whether an event is a request to open a capture device. -/
def Event.is_open_capture : Event → Bool
  | Event.SDL_OpenAudioDevice _ iscapture _ _ => decide (iscapture ≠ 0)
  | _ => false

/-- Whether an event unpauses the device `dev`. -/
def Event.is_unpause (dev : Nat) : Event → Bool
  | Event.SDL_PauseAudioDevice d pause_on => decide (d = dev ∧ pause_on = 0)
  | _ => false

/-- The stages of the setup sequence at which `audio_forwarding_start` can
fail (the stage table of the lifecycle). -/
inductive Stage where
  | S0_Init
  | S1_Serial
  | S2_PlayerInit
  | S3_ForwardEnabled
  | S4_SubsysInit
  | S5_DevicesOpen
  deriving DecidableEq, Repr

/-- The rollback chain that the stage table of the specification gives for
each stage, written as calls: nothing for S0,
protocol exit for S1 and S2, player destruction then protocol exit for S3,
and for S4 and S5 the disable request for the serial `s` (answered
`disable_ret`), player destruction, protocol exit. -/
def stage_rollback (s : String) (disable_ret : Bool) : Stage → List Event
  | Stage.S0_Init => []
  | Stage.S1_Serial => [Event.aoa_exit]
  | Stage.S2_PlayerInit => [Event.aoa_exit]
  | Stage.S3_ForwardEnabled => [Event.SDL_free (some s), Event.aoa_exit]
  | Stage.S4_SubsysInit =>
    [Event.aoa_forward_audio (some s) false disable_ret, Event.SDL_free (some s),
     Event.aoa_exit]
  | Stage.S5_DevicesOpen =>
    [Event.aoa_forward_audio (some s) false disable_ret, Event.SDL_free (some s),
     Event.aoa_exit]

/-- Whether an event is a cleanup call of the rollback chains (a disable
request, a player destruction or a protocol exit) or the closing of a
device. -/
def Event.is_cleanup : Event → Bool
  | Event.aoa_forward_audio _ false _ => true
  | Event.SDL_free _ => true
  | Event.aoa_exit => true
  | Event.SDL_CloseAudioDevice _ => true
  | _ => false

/-- Whether an event is one of the calls the rollback chains are made of (a
disable request, a player destruction or a protocol exit). -/
def Event.is_rollback : Event → Bool
  | Event.aoa_forward_audio _ false _ => true
  | Event.SDL_free _ => true
  | Event.aoa_exit => true
  | _ => false

/-- Whether an event is the query of the serial to the remote transport. -/
def Event.is_read_serial : Event → Bool
  | Event.adb_read_serialno _ _ => true
  | _ => false

/-- Whether an event pauses or unpauses some device. -/
def Event.is_pause : Event → Bool
  | Event.SDL_PauseAudioDevice _ _ => true
  | _ => false

/-! ## Sequences of callback invocations -/

/-- The invocations of `audio_input_callback` one after the other on one
player, each given its chunk and the value `SDL_QueueAudio` returns to it: for
every invocation, the player after it and the calls it made. -/
def run_callbacks : audio_player → List (List Nat × Int) → List (audio_player × List Event)
  | _, [] => []
  | player, (stream, queue_ret) :: rest =>
    (audio_input_callback player stream queue_ret) ::
      run_callbacks (audio_input_callback player stream queue_ret).1 rest

/-- What is observed of one invocation: the gate after it and the pause or
unpause calls it made. -/
def gate_and_pauses (r : audio_player × List Event) : Int × List Event :=
  (r.1.output_playing, r.2.filter Event.is_pause)

/-! ## Concurrent invocations of the callback

Invocations of `audio_input_callback` that run at the same time on one player
are modelled by interleaving their calls: every call of the function body
(`SDL_QueueAudio`, `SDL_AtomicCAS`, `SDL_PauseAudioDevice`) is one atomic step,
and a schedule says which invocation makes the next step. -/

/-- Where an invocation of `audio_input_callback` stands: before its call of
`SDL_QueueAudio`; after a successful enqueue, before `SDL_AtomicCAS`; after a
successful compare-and-set, before `SDL_PauseAudioDevice`; or returned. -/
inductive Pc where
  | at_queue
  | at_cas
  | at_unpause
  | returned
  deriving DecidableEq, Repr

/-- The player shared by the invocations, where each invocation stands, and
the calls made so far. -/
structure Race where
  player : audio_player
  pcs : List Pc
  log : List Event
  deriving DecidableEq, Repr

/-- Every invocation of `inv` (a chunk and the value `SDL_QueueAudio` will
return to it) about to start on `player`. -/
def race_init (player : audio_player) (inv : List (List Nat × Int)) : Race :=
  { player := player, pcs := List.replicate inv.length Pc.at_queue, log := [] }

/-- The next call of invocation `i`, following the body of
`audio_input_callback`; nothing when `i` has returned or does not exist. -/
def race_step (inv : List (List Nat × Int)) (st : Race) (i : Nat) : Race :=
  match st.pcs[i]?, inv[i]? with
  | some Pc.at_queue, some (stream, queue_ret) =>
    { st with
      pcs := st.pcs.set i (if queue_ret = 0 then Pc.at_cas else Pc.returned),
      log := st.log ++ [Event.SDL_QueueAudio st.player.output_device stream queue_ret] }
  | some Pc.at_cas, some _ =>
    let cas := SDL_AtomicCAS st.player.output_playing 0 1
    { player := { st.player with output_playing := cas.2 },
      pcs := st.pcs.set i (if cas.1 then Pc.at_unpause else Pc.returned),
      log := st.log ++ [Event.SDL_AtomicCAS 0 1 cas.1] }
  | some Pc.at_unpause, some _ =>
    { st with
      pcs := st.pcs.set i Pc.returned,
      log := st.log ++ [Event.SDL_PauseAudioDevice st.player.output_device 0] }
  | _, _ => st

/-- The steps of a schedule, one after the other. -/
def race_run (inv : List (List Nat × Int)) (st : Race) (sched : List Nat) : Race :=
  sched.foldl (race_step inv) st

/-- The spec the input device is opened with. -/
def input_spec (player : audio_player) : SDL_AudioSpec :=
  { init_audio_spec with
    callback := some Callback.audio_input_callback, userdata := some player.addr }

/-- The calls of `audio_forwarding_start` up to and including a successful
`sdl_audio_init` and the wait, for the resolved serial `s`. -/
def forward_calls (env : Env) (serial : Option String) (s : String) : List Event :=
  Event.aoa_init true :: (resolve_serial env serial).2 ++
    [Event.SDL_strdup s (some s),
     Event.aoa_forward_audio (some s) true true,
     Event.SDL_InitSubSystem SDL_INIT_AUDIO 0,
     Event.SDL_Delay 2000]

/-- An environment in which every collaborator succeeds, with two capture
devices. -/
def env_ok : Env :=
  { aoa_init := true, serialno_ret := 8, serialno_buf := "0123abcd", strdup_ok := true,
    forward_enable := true, init_subsystem := 0, open_output := 2, num_inputs := 2,
    device_name := fun i => if i = 0 then some "mic" else if i = 1 then some "phone" else none,
    open_input := 3, forward_disable := true }

/-- A player structure before any session. -/
def player0 : audio_player :=
  { addr := 4096, serial := none, input_device := 0, output_device := 0, output_playing := 0 }

/-! ## The paths through `audio_player_open` and `audio_forwarding_start` -/

theorem open_input_none (env : Env) (player : audio_player) (h : env.num_inputs = 0) :
    open_accessory_audio_input env player = (0, [Event.SDL_GetNumAudioDevices 1 0]) := by
  simp [open_accessory_audio_input, h]

theorem open_input_some (env : Env) (player : audio_player) (h : env.num_inputs ≠ 0) :
    open_accessory_audio_input env player =
      (env.open_input,
        [Event.SDL_GetNumAudioDevices 1 env.num_inputs,
         Event.SDL_GetAudioDeviceName (env.num_inputs - 1) 1
           (env.device_name (env.num_inputs - 1)),
         Event.SDL_OpenAudioDevice (env.device_name (env.num_inputs - 1)) 1
           (input_spec player) env.open_input]) := by
  simp [open_accessory_audio_input, h, input_spec]

/-- The four ways through `audio_player_open`. -/
theorem audio_player_open_cases (env : Env) (player : audio_player) :
    (env.open_output = 0 ∧
      audio_player_open env player =
        (false, { player with output_device := 0 },
          [Event.SDL_OpenAudioDevice none 0 init_audio_spec 0])) ∨
    (env.open_output ≠ 0 ∧ env.num_inputs = 0 ∧
      audio_player_open env player =
        (false, { player with output_device := env.open_output, input_device := 0 },
          [Event.SDL_OpenAudioDevice none 0 init_audio_spec env.open_output,
           Event.SDL_GetNumAudioDevices 1 0,
           Event.SDL_CloseAudioDevice env.open_output])) ∨
    (env.open_output ≠ 0 ∧ env.num_inputs ≠ 0 ∧ env.open_input = 0 ∧
      audio_player_open env player =
        (false, { player with output_device := env.open_output, input_device := 0 },
          [Event.SDL_OpenAudioDevice none 0 init_audio_spec env.open_output,
           Event.SDL_GetNumAudioDevices 1 env.num_inputs,
           Event.SDL_GetAudioDeviceName (env.num_inputs - 1) 1
             (env.device_name (env.num_inputs - 1)),
           Event.SDL_OpenAudioDevice (env.device_name (env.num_inputs - 1)) 1
             (input_spec player) 0,
           Event.SDL_CloseAudioDevice env.open_output])) ∨
    (env.open_output ≠ 0 ∧ env.num_inputs ≠ 0 ∧ env.open_input ≠ 0 ∧
      audio_player_open env player =
        (true, { player with output_device := env.open_output,
                             input_device := env.open_input, output_playing := 0 },
          [Event.SDL_OpenAudioDevice none 0 init_audio_spec env.open_output,
           Event.SDL_GetNumAudioDevices 1 env.num_inputs,
           Event.SDL_GetAudioDeviceName (env.num_inputs - 1) 1
             (env.device_name (env.num_inputs - 1)),
           Event.SDL_OpenAudioDevice (env.device_name (env.num_inputs - 1)) 1
             (input_spec player) env.open_input,
           Event.SDL_AtomicSet 0])) := by
  by_cases ho : env.open_output = 0
  · left
    simp [audio_player_open, open_default_audio_output, ho]
  · by_cases hn : env.num_inputs = 0
    · right; left
      simp [audio_player_open, open_default_audio_output, ho, hn, open_input_none env _ hn]
    · by_cases hi : env.open_input = 0
      · right; right; left
        simp [audio_player_open, open_default_audio_output, ho, hn, hi,
          open_input_some env _ hn, input_spec]
      · right; right; right
        simp [audio_player_open, open_default_audio_output, ho, hn, hi,
          open_input_some env _ hn, input_spec]

theorem audio_player_open_serial (env : Env) (player : audio_player) :
    (audio_player_open env player).2.1.serial = player.serial := by
  rcases audio_player_open_cases env player with h | h | h | h <;> simp [h]

/-- The seven ways through `audio_forwarding_start`. -/
theorem audio_forwarding_start_cases (env : Env) (player : audio_player)
    (serial : Option String) :
    (env.aoa_init = false ∧
      audio_forwarding_start env player serial =
        (false, player, [Event.aoa_init false])) ∨
    (env.aoa_init = true ∧ (resolve_serial env serial).1 = none ∧
      audio_forwarding_start env player serial =
        (false, player,
          Event.aoa_init true :: (resolve_serial env serial).2 ++ [Event.aoa_exit])) ∨
    (∃ s, env.aoa_init = true ∧ (resolve_serial env serial).1 = some s ∧
      env.strdup_ok = false ∧
      audio_forwarding_start env player serial =
        (false, { player with serial := none },
          Event.aoa_init true :: (resolve_serial env serial).2 ++
            [Event.SDL_strdup s none, Event.aoa_exit])) ∨
    (∃ s, env.aoa_init = true ∧ (resolve_serial env serial).1 = some s ∧
      env.strdup_ok = true ∧ env.forward_enable = false ∧
      audio_forwarding_start env player serial =
        (false, { player with serial := some s },
          Event.aoa_init true :: (resolve_serial env serial).2 ++
            [Event.SDL_strdup s (some s),
             Event.aoa_forward_audio (some s) true false,
             Event.SDL_free (some s), Event.aoa_exit])) ∨
    (∃ s, env.aoa_init = true ∧ (resolve_serial env serial).1 = some s ∧
      env.strdup_ok = true ∧ env.forward_enable = true ∧ env.init_subsystem ≠ 0 ∧
      audio_forwarding_start env player serial =
        (false, { player with serial := some s },
          Event.aoa_init true :: (resolve_serial env serial).2 ++
            [Event.SDL_strdup s (some s),
             Event.aoa_forward_audio (some s) true true,
             Event.SDL_InitSubSystem SDL_INIT_AUDIO env.init_subsystem,
             Event.aoa_forward_audio (some s) false env.forward_disable,
             Event.SDL_free (some s), Event.aoa_exit])) ∨
    (∃ s, env.aoa_init = true ∧ (resolve_serial env serial).1 = some s ∧
      env.strdup_ok = true ∧ env.forward_enable = true ∧ env.init_subsystem = 0 ∧
      (audio_player_open env { player with serial := some s }).1 = false ∧
      audio_forwarding_start env player serial =
        (false, (audio_player_open env { player with serial := some s }).2.1,
          forward_calls env serial s ++
            (audio_player_open env { player with serial := some s }).2.2 ++
            [Event.aoa_forward_audio (some s) false env.forward_disable,
             Event.SDL_free (some s), Event.aoa_exit])) ∨
    (∃ s, env.aoa_init = true ∧ (resolve_serial env serial).1 = some s ∧
      env.strdup_ok = true ∧ env.forward_enable = true ∧ env.init_subsystem = 0 ∧
      (audio_player_open env { player with serial := some s }).1 = true ∧
      audio_forwarding_start env player serial =
        (true, (audio_player_open env { player with serial := some s }).2.1,
          forward_calls env serial s ++
            (audio_player_open env { player with serial := some s }).2.2 ++
            [Event.SDL_PauseAudioDevice
              (audio_player_open env { player with serial := some s }).2.1.input_device
              0])) := by
  cases hai : env.aoa_init
  · left
    simp [audio_forwarding_start, hai]
  · right
    cases hres : (resolve_serial env serial).1 with
    | none =>
      left
      simp [audio_forwarding_start, hai, hres, error_aoa_exit]
    | some s =>
      right
      cases hsd : env.strdup_ok
      · left
        exact ⟨s, rfl, rfl, rfl, by
          simp [audio_forwarding_start, hai, hres, hsd, audio_player_init, error_aoa_exit]⟩
      · right
        cases hfe : env.forward_enable
        · left
          exact ⟨s, rfl, rfl, rfl, rfl, by
            simp [audio_forwarding_start, hai, hres, hsd, hfe, audio_player_init,
              error_aoa_exit, error_destroy_player, audio_player_destroy]⟩
        · right
          by_cases hsi : env.init_subsystem = 0
          · right
            cases hop : (audio_player_open env { player with serial := some s }).1
            · left
              have hser := audio_player_open_serial env { player with serial := some s }
              refine ⟨s, rfl, rfl, rfl, rfl, hsi, hop, ?_⟩
              simp [audio_forwarding_start, hai, hres, hsd, hfe, hsi, hop, audio_player_init,
                sdl_audio_init, error_aoa_exit, error_destroy_player, audio_player_destroy,
                error_disable_audio_forwarding, forward_calls, hser]
            · right
              refine ⟨s, rfl, rfl, rfl, rfl, hsi, hop, ?_⟩
              simp [audio_forwarding_start, hai, hres, hsd, hfe, hsi, hop, audio_player_init,
                sdl_audio_init, forward_calls]
          · left
            refine ⟨s, rfl, rfl, rfl, rfl, hsi, ?_⟩
            simp [audio_forwarding_start, hai, hres, hsd, hfe, hsi, audio_player_init,
              sdl_audio_init, error_aoa_exit, error_destroy_player, audio_player_destroy,
              error_disable_audio_forwarding]

theorem resolve_serial_calls (env : Env) (serial : Option String) :
    (resolve_serial env serial).2 = [] ∨
    (resolve_serial env serial).2 = [Event.adb_read_serialno SERIALNO_SIZE env.serialno_ret] := by
  cases serial with
  | some s => left; rfl
  | none =>
    right
    by_cases h : env.serialno_ret ≤ 0 <;> simp [resolve_serial, h]

theorem open_handles_from_resolve (env : Env) (serial : Option String) (acc : List Nat)
    (t : List Event) :
    open_handles_from acc ((resolve_serial env serial).2 ++ t) = open_handles_from acc t := by
  rcases resolve_serial_calls env serial with h | h <;> simp [h, open_handles_from]

/-! ## Failure of `audio_forwarding_start` -/

/-- C1, as stated, fails: when enabling accessory audio succeeds, the audio
subsystem cannot be initialised and the disable request of the rollback fails
too, `audio_forwarding_start` returns failure after a successful `aoa_init`
with accessory-audio mode still on. -/
theorem start_failure_mode_off_counterexample :
    ({ env_ok with init_subsystem := -1, forward_disable := false } : Env).aoa_init = true ∧
    (audio_forwarding_start { env_ok with init_subsystem := -1, forward_disable := false }
      player0 (some "ABC123")).1 = false ∧
    (audio_forwarding_start { env_ok with init_subsystem := -1, forward_disable := false }
      player0 (some "ABC123")).2.2 =
      [Event.aoa_init true, Event.SDL_strdup "ABC123" (some "ABC123"),
       Event.aoa_forward_audio (some "ABC123") true true,
       Event.SDL_InitSubSystem 16 (-1),
       Event.aoa_forward_audio (some "ABC123") false false,
       Event.SDL_free (some "ABC123"), Event.aoa_exit] ∧
    accessory_audio
      (audio_forwarding_start { env_ok with init_subsystem := -1, forward_disable := false }
        player0 (some "ABC123")).2.2 = true := by
  decide

/-- C1, amended: whenever `audio_forwarding_start` returns failure after
`aoa_init` succeeded, (a) every device handle opened during the call has been
closed, and (b) accessory-audio mode is off unless enabling had succeeded and
the disable request of the rollback failed; in particular it is off whenever
that disable request succeeds, and a disable request for the same serial has
been made whenever an enable request succeeded. -/
theorem start_failure_releases (env : Env) (player : audio_player)
    (serial : Option String)
    (hinit : env.aoa_init = true)
    (hfail : (audio_forwarding_start env player serial).1 = false) :
    open_handles (audio_forwarding_start env player serial).2.2 = [] ∧
    (accessory_audio (audio_forwarding_start env player serial).2.2 = true →
      env.forward_enable = true ∧ env.forward_disable = false) ∧
    (env.forward_disable = true →
      accessory_audio (audio_forwarding_start env player serial).2.2 = false) ∧
    (∀ s, Event.aoa_forward_audio s true true ∈
        (audio_forwarding_start env player serial).2.2 →
      Event.aoa_forward_audio s false env.forward_disable ∈
        (audio_forwarding_start env player serial).2.2) := by
  rcases audio_forwarding_start_cases env player serial with
    ⟨h1, h⟩ | ⟨_, _, h⟩ | ⟨s, _, _, _, h⟩ | ⟨s, _, _, _, hfe, h⟩ | ⟨s, _, _, _, _, _, h⟩ |
    ⟨s, _, _, _, _, _, hop, h⟩ | ⟨s, _, _, _, _, _, _, h⟩
  · rw [h1] at hinit
    exact absurd hinit (by decide)
  · rcases resolve_serial_calls env serial with hc | hc <;>
    simp [h, hc, open_handles, accessory_audio, open_handles_from, accessory_audio_from]
  · rcases resolve_serial_calls env serial with hc | hc <;>
    simp [h, hc, open_handles, accessory_audio, open_handles_from, accessory_audio_from]
  · rcases resolve_serial_calls env serial with hc | hc <;>
    simp [h, hc, open_handles, accessory_audio, open_handles_from, accessory_audio_from]
  · rcases resolve_serial_calls env serial with hc | hc <;>
    cases hfd : env.forward_disable <;>
    simp [h, hc, hfd, open_handles, accessory_audio, open_handles_from,
      accessory_audio_from, *]
  · rcases audio_player_open_cases env { player with serial := some s } with
      ⟨ho, h2⟩ | ⟨ho, _, h2⟩ | ⟨ho, _, _, h2⟩ | ⟨_, _, _, h2⟩
    · rcases resolve_serial_calls env serial with hc | hc <;>
      cases hfd : env.forward_disable <;>
      simp [h, h2, hc, hfd, forward_calls, open_handles, accessory_audio,
        open_handles_from, accessory_audio_from, *]
    · rcases resolve_serial_calls env serial with hc | hc <;>
      cases hfd : env.forward_disable <;>
      simp [h, h2, hc, hfd, forward_calls, open_handles, accessory_audio,
        open_handles_from, accessory_audio_from, *]
    · rcases resolve_serial_calls env serial with hc | hc <;>
      cases hfd : env.forward_disable <;>
      simp [h, h2, hc, hfd, forward_calls, open_handles, accessory_audio,
        open_handles_from, accessory_audio_from, *]
    · rw [h2] at hop
      simp at hop
  · rw [h] at hfail
    simp at hfail

/-- Witness of `start_failure_releases`: no capture device is enumerated
(the output device, handle 2, was opened and is closed again) and the disable
request of the rollback succeeds. -/
theorem start_failure_releases_witness :
    ({ env_ok with num_inputs := 0 } : Env).aoa_init = true ∧
    (audio_forwarding_start { env_ok with num_inputs := 0 } player0 (some "ABC123")).1 = false ∧
    open_handles
      (audio_forwarding_start { env_ok with num_inputs := 0 } player0 (some "ABC123")).2.2
      = [] ∧
    accessory_audio
      (audio_forwarding_start { env_ok with num_inputs := 0 } player0 (some "ABC123")).2.2
      = false :=
  ⟨rfl, by decide,
    (start_failure_releases { env_ok with num_inputs := 0 } player0 (some "ABC123") rfl
      (by decide)).1,
    (start_failure_releases { env_ok with num_inputs := 0 } player0 (some "ABC123") rfl
      (by decide)).2.2.1 rfl⟩

/-- C2: at whichever stage `audio_forwarding_start` first fails, it returns
failure and its calls are the calls of the stages run so far followed by
exactly the rollback chain of that stage: nothing when `aoa_init` fails;
`aoa_exit` when the serial cannot be read or the player cannot be
initialised; player destruction then `aoa_exit` when enabling accessory audio
fails, no device having been opened; and the disable request for the resolved
serial, player destruction, `aoa_exit` when the audio subsystem cannot be
initialised or the devices cannot be opened. The calls of the device opening
itself (`audio_player_open`, which closes the output device again when the
input device cannot be opened) contain none of the calls of a rollback
chain. -/
theorem start_rollback_chain (env : Env) (player : audio_player) (serial : Option String) :
    (env.aoa_init = false →
      (audio_forwarding_start env player serial).1 = false ∧
      (audio_forwarding_start env player serial).2.2 =
        [Event.aoa_init false] ++ stage_rollback "" env.forward_disable Stage.S0_Init) ∧
    (env.aoa_init = true → serial = none → env.serialno_ret ≤ 0 →
      (audio_forwarding_start env player serial).1 = false ∧
      (audio_forwarding_start env player serial).2.2 =
        [Event.aoa_init true, Event.adb_read_serialno SERIALNO_SIZE env.serialno_ret] ++
          stage_rollback "" env.forward_disable Stage.S1_Serial) ∧
    (∀ s, env.aoa_init = true → (resolve_serial env serial).1 = some s →
      env.strdup_ok = false →
      (audio_forwarding_start env player serial).1 = false ∧
      (audio_forwarding_start env player serial).2.2 =
        Event.aoa_init true :: (resolve_serial env serial).2 ++
          [Event.SDL_strdup s none] ++
          stage_rollback s env.forward_disable Stage.S2_PlayerInit) ∧
    (∀ s, env.aoa_init = true → (resolve_serial env serial).1 = some s →
      env.strdup_ok = true → env.forward_enable = false →
      (audio_forwarding_start env player serial).1 = false ∧
      (audio_forwarding_start env player serial).2.2 =
        Event.aoa_init true :: (resolve_serial env serial).2 ++
          [Event.SDL_strdup s (some s), Event.aoa_forward_audio (some s) true false] ++
          stage_rollback s env.forward_disable Stage.S3_ForwardEnabled ∧
      (audio_forwarding_start env player serial).2.2.filter Event.is_open = []) ∧
    (∀ s, env.aoa_init = true → (resolve_serial env serial).1 = some s →
      env.strdup_ok = true → env.forward_enable = true → env.init_subsystem ≠ 0 →
      (audio_forwarding_start env player serial).1 = false ∧
      (audio_forwarding_start env player serial).2.2 =
        Event.aoa_init true :: (resolve_serial env serial).2 ++
          [Event.SDL_strdup s (some s), Event.aoa_forward_audio (some s) true true,
           Event.SDL_InitSubSystem SDL_INIT_AUDIO env.init_subsystem] ++
          stage_rollback s env.forward_disable Stage.S4_SubsysInit) ∧
    (∀ s, env.aoa_init = true → (resolve_serial env serial).1 = some s →
      env.strdup_ok = true → env.forward_enable = true → env.init_subsystem = 0 →
      (audio_player_open env { player with serial := some s }).1 = false →
      (audio_forwarding_start env player serial).1 = false ∧
      (audio_forwarding_start env player serial).2.2 =
        Event.aoa_init true :: (resolve_serial env serial).2 ++
          [Event.SDL_strdup s (some s), Event.aoa_forward_audio (some s) true true,
           Event.SDL_InitSubSystem SDL_INIT_AUDIO 0, Event.SDL_Delay 2000] ++
          (audio_player_open env { player with serial := some s }).2.2 ++
          stage_rollback s env.forward_disable Stage.S5_DevicesOpen ∧
      (audio_player_open env { player with serial := some s }).2.2.filter
        Event.is_rollback = []) := by
  refine ⟨?_, ?_, ?_, ?_, ?_, ?_⟩
  · intro h
    simp [audio_forwarding_start, h, stage_rollback]
  · intro h hs hr
    subst hs
    simp [audio_forwarding_start, h, resolve_serial, hr, error_aoa_exit, stage_rollback]
  · intro s h hres hsd
    simp [audio_forwarding_start, h, hres, hsd, audio_player_init, error_aoa_exit,
      stage_rollback]
  · intro s h hres hsd hfe
    rcases resolve_serial_calls env serial with hc | hc <;>
    simp [audio_forwarding_start, h, hres, hsd, hfe, hc, audio_player_init, error_aoa_exit,
      error_destroy_player, audio_player_destroy, stage_rollback, Event.is_open]
  · intro s h hres hsd hfe hsi
    simp [audio_forwarding_start, h, hres, hsd, hfe, hsi, audio_player_init, sdl_audio_init,
      error_aoa_exit, error_destroy_player, audio_player_destroy,
      error_disable_audio_forwarding, stage_rollback]
  · intro s h hres hsd hfe hsi hop
    have hser := audio_player_open_serial env { player with serial := some s }
    refine ⟨?_, ?_, ?_⟩
    · simp [audio_forwarding_start, h, hres, hsd, hfe, hsi, hop, audio_player_init,
        sdl_audio_init]
    · simp [audio_forwarding_start, h, hres, hsd, hfe, hsi, hop, audio_player_init,
        sdl_audio_init, error_aoa_exit, error_destroy_player, audio_player_destroy,
        error_disable_audio_forwarding, stage_rollback, hser]
    · rcases audio_player_open_cases env { player with serial := some s } with
        ⟨_, h2⟩ | ⟨_, _, h2⟩ | ⟨_, _, _, h2⟩ | ⟨_, _, _, h2⟩ <;>
      simp [h2, Event.is_rollback]

/-- Witness of `start_rollback_chain`: one run per stage of first failure,
with the caller's serial "ABC123" (no serial for the S1 run). -/
theorem start_rollback_chain_witness :
    (audio_forwarding_start { env_ok with aoa_init := false } player0 (some "ABC123")).2.2 =
      [Event.aoa_init false] ∧
    (audio_forwarding_start { env_ok with serialno_ret := 0 } player0 none).2.2 =
      [Event.aoa_init true, Event.adb_read_serialno 128 0, Event.aoa_exit] ∧
    (audio_forwarding_start { env_ok with strdup_ok := false } player0 (some "ABC123")).2.2 =
      [Event.aoa_init true, Event.SDL_strdup "ABC123" none, Event.aoa_exit] ∧
    (audio_forwarding_start { env_ok with forward_enable := false } player0
        (some "ABC123")).2.2 =
      [Event.aoa_init true, Event.SDL_strdup "ABC123" (some "ABC123"),
       Event.aoa_forward_audio (some "ABC123") true false,
       Event.SDL_free (some "ABC123"), Event.aoa_exit] ∧
    (audio_forwarding_start { env_ok with init_subsystem := -1 } player0
        (some "ABC123")).2.2 =
      [Event.aoa_init true, Event.SDL_strdup "ABC123" (some "ABC123"),
       Event.aoa_forward_audio (some "ABC123") true true,
       Event.SDL_InitSubSystem 16 (-1),
       Event.aoa_forward_audio (some "ABC123") false true,
       Event.SDL_free (some "ABC123"), Event.aoa_exit] ∧
    (audio_forwarding_start { env_ok with open_output := 0 } player0 (some "ABC123")).2.2 =
      [Event.aoa_init true, Event.SDL_strdup "ABC123" (some "ABC123"),
       Event.aoa_forward_audio (some "ABC123") true true,
       Event.SDL_InitSubSystem 16 0, Event.SDL_Delay 2000,
       Event.SDL_OpenAudioDevice none 0 init_audio_spec 0,
       Event.aoa_forward_audio (some "ABC123") false true,
       Event.SDL_free (some "ABC123"), Event.aoa_exit] :=
  ⟨((start_rollback_chain { env_ok with aoa_init := false } player0 (some "ABC123")).1
      rfl).2,
   ((start_rollback_chain { env_ok with serialno_ret := 0 } player0 none).2.1
      rfl rfl (by decide)).2,
   ((start_rollback_chain { env_ok with strdup_ok := false } player0 (some "ABC123")).2.2.1
      "ABC123" rfl rfl rfl).2,
   ((start_rollback_chain { env_ok with forward_enable := false } player0
      (some "ABC123")).2.2.2.1 "ABC123" rfl rfl rfl rfl).2.1,
   ((start_rollback_chain { env_ok with init_subsystem := -1 } player0
      (some "ABC123")).2.2.2.2.1 "ABC123" rfl rfl rfl rfl (by decide)).2,
   ((start_rollback_chain { env_ok with open_output := 0 } player0
      (some "ABC123")).2.2.2.2.2 "ABC123" rfl rfl rfl rfl rfl rfl).2.1⟩

/-! ## Success of `audio_forwarding_start`, and `audio_forwarding_stop` -/

/-- What a successful `audio_forwarding_start` leaves and calls. -/
theorem start_success (env : Env) (player : audio_player) (serial : Option String)
    (h : (audio_forwarding_start env player serial).1 = true) :
    ∃ s, (resolve_serial env serial).1 = some s ∧
      env.aoa_init = true ∧ env.strdup_ok = true ∧ env.forward_enable = true ∧
      env.init_subsystem = 0 ∧ env.open_output ≠ 0 ∧ env.num_inputs ≠ 0 ∧
      env.open_input ≠ 0 ∧
      audio_forwarding_start env player serial =
        (true,
          { player with serial := some s, output_device := env.open_output,
                        input_device := env.open_input, output_playing := 0 },
          Event.aoa_init true :: (resolve_serial env serial).2 ++
            [Event.SDL_strdup s (some s),
             Event.aoa_forward_audio (some s) true true,
             Event.SDL_InitSubSystem SDL_INIT_AUDIO 0,
             Event.SDL_Delay 2000,
             Event.SDL_OpenAudioDevice none 0 init_audio_spec env.open_output,
             Event.SDL_GetNumAudioDevices 1 env.num_inputs,
             Event.SDL_GetAudioDeviceName (env.num_inputs - 1) 1
               (env.device_name (env.num_inputs - 1)),
             Event.SDL_OpenAudioDevice (env.device_name (env.num_inputs - 1)) 1
               (input_spec player) env.open_input,
             Event.SDL_AtomicSet 0,
             Event.SDL_PauseAudioDevice env.open_input 0]) := by
  rcases audio_forwarding_start_cases env player serial with
    ⟨_, h1⟩ | ⟨_, _, h1⟩ | ⟨s, _, _, _, h1⟩ | ⟨s, _, _, _, _, h1⟩ | ⟨s, _, _, _, _, _, h1⟩ |
    ⟨s, _, _, _, _, _, _, h1⟩ | ⟨s, hai, hres, hsd, hfe, hsi, hop, h1⟩
  · rw [h1] at h; simp at h
  · rw [h1] at h; simp at h
  · rw [h1] at h; simp at h
  · rw [h1] at h; simp at h
  · rw [h1] at h; simp at h
  · rw [h1] at h; simp at h
  · rcases audio_player_open_cases env { player with serial := some s } with
      ⟨_, h2⟩ | ⟨_, _, h2⟩ | ⟨_, _, _, h2⟩ | ⟨ho, hn, hi, h2⟩
    · rw [h2] at hop; simp at hop
    · rw [h2] at hop; simp at hop
    · rw [h2] at hop; simp at hop
    · refine ⟨s, hres, hai, hsd, hfe, hsi, ho, hn, hi, ?_⟩
      rw [h1, h2]
      simp [forward_calls, input_spec]

/-- C4: on the player left by a successful `audio_forwarding_start`, and
whatever the disable request answers, `audio_forwarding_stop` calls exactly:
close the input device, close the output device, disable accessory audio for
the player's serial, `aoa_exit`, player destruction. The handles closed are
the two opened by the start, so that none is left open, and the serial is the
resolved one. -/
theorem stop_calls (env : Env) (player : audio_player) (serial : Option String)
    (disable_ret : Bool)
    (h : (audio_forwarding_start env player serial).1 = true) :
    audio_forwarding_stop disable_ret (audio_forwarding_start env player serial).2.1 =
      [Event.SDL_CloseAudioDevice (audio_forwarding_start env player serial).2.1.input_device,
       Event.SDL_CloseAudioDevice (audio_forwarding_start env player serial).2.1.output_device,
       Event.aoa_forward_audio (audio_forwarding_start env player serial).2.1.serial false
         disable_ret,
       Event.aoa_exit,
       Event.SDL_free (audio_forwarding_start env player serial).2.1.serial] ∧
    (audio_forwarding_start env player serial).2.1.input_device = env.open_input ∧
    (audio_forwarding_start env player serial).2.1.output_device = env.open_output ∧
    (audio_forwarding_start env player serial).2.1.serial = (resolve_serial env serial).1 ∧
    open_handles (audio_forwarding_start env player serial).2.2 ≠ [] ∧
    open_handles ((audio_forwarding_start env player serial).2.2 ++
      audio_forwarding_stop disable_ret (audio_forwarding_start env player serial).2.1) = [] := by
  obtain ⟨s, hres, _, _, _, _, ho, hn, hi, h1⟩ := start_success env player serial h
  rw [h1]
  by_cases hoi : env.open_output = env.open_input
  · simp [audio_forwarding_stop, audio_player_close, audio_player_destroy, hres,
      open_handles, open_handles_from, open_handles_from_resolve, ho, hi, hoi]
  · simp [audio_forwarding_stop, audio_player_close, audio_player_destroy, hres,
      open_handles, open_handles_from, open_handles_from_resolve, ho, hi, hoi,
      List.erase_cons]

/-- Witness of `stop_calls`: a session for the serial "ABC123" in which the
disable request of the stop fails. -/
theorem stop_calls_witness :
    (audio_forwarding_start env_ok player0 (some "ABC123")).1 = true ∧
    audio_forwarding_stop false (audio_forwarding_start env_ok player0 (some "ABC123")).2.1 =
      [Event.SDL_CloseAudioDevice 3, Event.SDL_CloseAudioDevice 2,
       Event.aoa_forward_audio (some "ABC123") false false, Event.aoa_exit,
       Event.SDL_free (some "ABC123")] :=
  ⟨by decide, (stop_calls env_ok player0 (some "ABC123") false (by decide)).1⟩

/-- C5: with a serial supplied by the caller and every collaborator call
succeeding (the two device handles being distinct, as handles of devices that
are open together are), `audio_forwarding_start` returns success and calls, in
this order: `aoa_init`, player init with the serial, enable accessory audio
with the serial, audio subsystem init, the 2000 ms wait, open output device,
enumerate and open input device (then the gate reset), unpause input device.
The serial is not queried, no cleanup call is made, the input device is
unpaused and the output device receives no unpause. -/
theorem start_success_calls (env : Env) (player : audio_player) (s : String)
    (hai : env.aoa_init = true) (hsd : env.strdup_ok = true)
    (hfe : env.forward_enable = true) (hsi : env.init_subsystem = 0)
    (ho : env.open_output ≠ 0) (hn : env.num_inputs ≠ 0) (hi : env.open_input ≠ 0)
    (hdistinct : env.open_input ≠ env.open_output) :
    (audio_forwarding_start env player (some s)).1 = true ∧
    (audio_forwarding_start env player (some s)).2.2 =
      [Event.aoa_init true,
       Event.SDL_strdup s (some s),
       Event.aoa_forward_audio (some s) true true,
       Event.SDL_InitSubSystem SDL_INIT_AUDIO 0,
       Event.SDL_Delay 2000,
       Event.SDL_OpenAudioDevice none 0 init_audio_spec env.open_output,
       Event.SDL_GetNumAudioDevices 1 env.num_inputs,
       Event.SDL_GetAudioDeviceName (env.num_inputs - 1) 1
         (env.device_name (env.num_inputs - 1)),
       Event.SDL_OpenAudioDevice (env.device_name (env.num_inputs - 1)) 1
         (input_spec player) env.open_input,
       Event.SDL_AtomicSet 0,
       Event.SDL_PauseAudioDevice env.open_input 0] ∧
    (audio_forwarding_start env player (some s)).2.2.filter Event.is_read_serial = [] ∧
    (audio_forwarding_start env player (some s)).2.2.filter Event.is_cleanup = [] ∧
    (audio_forwarding_start env player (some s)).2.2.filter Event.is_pause =
      [Event.SDL_PauseAudioDevice env.open_input 0] ∧
    (audio_forwarding_start env player (some s)).2.2.filter
      (Event.is_unpause env.open_output) = [] ∧
    (audio_forwarding_start env player (some s)).2.1.input_device = env.open_input ∧
    (audio_forwarding_start env player (some s)).2.1.output_device = env.open_output := by
  have hop : audio_player_open env { player with serial := some s } =
      (true, { player with serial := some s, output_device := env.open_output,
                           input_device := env.open_input, output_playing := 0 },
        [Event.SDL_OpenAudioDevice none 0 init_audio_spec env.open_output,
         Event.SDL_GetNumAudioDevices 1 env.num_inputs,
         Event.SDL_GetAudioDeviceName (env.num_inputs - 1) 1
           (env.device_name (env.num_inputs - 1)),
         Event.SDL_OpenAudioDevice (env.device_name (env.num_inputs - 1)) 1
           (input_spec player) env.open_input,
         Event.SDL_AtomicSet 0]) := by
    rcases audio_player_open_cases env { player with serial := some s } with
      ⟨h0, _⟩ | ⟨_, h0, _⟩ | ⟨_, _, h0, _⟩ | ⟨_, _, _, h2⟩
    · exact absurd h0 ho
    · exact absurd h0 hn
    · exact absurd h0 hi
    · rw [h2]; simp [input_spec]
  simp [audio_forwarding_start, hai, hsd, hfe, hsi, hop, resolve_serial, audio_player_init,
    sdl_audio_init, Event.is_read_serial, Event.is_cleanup, Event.is_pause,
    Event.is_unpause, hdistinct]

/-- Witness of `start_success_calls`: the caller's serial "ABC123", output
handle 2, two capture devices, input handle 3. -/
theorem start_success_calls_witness :
    (audio_forwarding_start env_ok player0 (some "ABC123")).1 = true ∧
    (audio_forwarding_start env_ok player0 (some "ABC123")).2.2 =
      [Event.aoa_init true,
       Event.SDL_strdup "ABC123" (some "ABC123"),
       Event.aoa_forward_audio (some "ABC123") true true,
       Event.SDL_InitSubSystem 16 0,
       Event.SDL_Delay 2000,
       Event.SDL_OpenAudioDevice none 0
         { freq := 44100, format := 0x8010, channels := 2, silence := 0, samples := 2048,
           size := 0, callback := none, userdata := none } 2,
       Event.SDL_GetNumAudioDevices 1 2,
       Event.SDL_GetAudioDeviceName 1 1 (some "phone"),
       Event.SDL_OpenAudioDevice (some "phone") 1
         { freq := 44100, format := 0x8010, channels := 2, silence := 0, samples := 2048,
           size := 0, callback := some Callback.audio_input_callback,
           userdata := some 4096 } 3,
       Event.SDL_AtomicSet 0,
       Event.SDL_PauseAudioDevice 3 0] :=
  ⟨(start_success_calls env_ok player0 "ABC123" rfl rfl rfl rfl (by decide) (by decide)
      (by decide) (by decide)).1,
   (start_success_calls env_ok player0 "ABC123" rfl rfl rfl rfl (by decide) (by decide)
      (by decide) (by decide)).2.1⟩

/-- C6: when every stage up to the device opening succeeds and the
enumeration of capture devices is empty, `audio_forwarding_start` returns
failure; it makes no request to open a capture device and no pause or unpause
call; the output device it opened is closed again; and it then disables
accessory audio, destroys the player and calls `aoa_exit`, in this order,
before returning. -/
theorem start_no_input_device (env : Env) (player : audio_player) (serial : Option String)
    (s : String)
    (hai : env.aoa_init = true) (hres : (resolve_serial env serial).1 = some s)
    (hsd : env.strdup_ok = true) (hfe : env.forward_enable = true)
    (hsi : env.init_subsystem = 0) (ho : env.open_output ≠ 0) (hn : env.num_inputs = 0) :
    (audio_forwarding_start env player serial).1 = false ∧
    (audio_forwarding_start env player serial).2.2 =
      Event.aoa_init true :: (resolve_serial env serial).2 ++
        [Event.SDL_strdup s (some s),
         Event.aoa_forward_audio (some s) true true,
         Event.SDL_InitSubSystem SDL_INIT_AUDIO 0,
         Event.SDL_Delay 2000,
         Event.SDL_OpenAudioDevice none 0 init_audio_spec env.open_output,
         Event.SDL_GetNumAudioDevices 1 0,
         Event.SDL_CloseAudioDevice env.open_output,
         Event.aoa_forward_audio (some s) false env.forward_disable,
         Event.SDL_free (some s),
         Event.aoa_exit] ∧
    (audio_forwarding_start env player serial).2.2.filter Event.is_open_capture = [] ∧
    (audio_forwarding_start env player serial).2.2.filter Event.is_pause = [] ∧
    open_handles (audio_forwarding_start env player serial).2.2 = [] := by
  have hop : audio_player_open env { player with serial := some s } =
      (false, { player with serial := some s, output_device := env.open_output,
                            input_device := 0 },
        [Event.SDL_OpenAudioDevice none 0 init_audio_spec env.open_output,
         Event.SDL_GetNumAudioDevices 1 0,
         Event.SDL_CloseAudioDevice env.open_output]) := by
    rcases audio_player_open_cases env { player with serial := some s } with
      ⟨h0, _⟩ | ⟨_, _, h2⟩ | ⟨_, h0, _⟩ | ⟨_, h0, _⟩
    · exact absurd h0 ho
    · rw [h2]
    · exact absurd hn h0
    · exact absurd hn h0
  rcases resolve_serial_calls env serial with hc | hc <;>
  simp [audio_forwarding_start, hai, hres, hsd, hfe, hsi, hop, hc, audio_player_init,
    sdl_audio_init, error_disable_audio_forwarding, error_destroy_player, error_aoa_exit,
    audio_player_destroy, Event.is_open_capture, Event.is_pause, open_handles,
    open_handles_from, ho]

/-- Witness of `start_no_input_device`: no serial supplied, the transport
answers "0123abcd", the output device gets handle 2. -/
theorem start_no_input_device_witness :
    (audio_forwarding_start { env_ok with num_inputs := 0 } player0 none).1 = false ∧
    (audio_forwarding_start { env_ok with num_inputs := 0 } player0 none).2.2 =
      [Event.aoa_init true,
       Event.adb_read_serialno 128 8,
       Event.SDL_strdup "0123abcd" (some "0123abcd"),
       Event.aoa_forward_audio (some "0123abcd") true true,
       Event.SDL_InitSubSystem 16 0,
       Event.SDL_Delay 2000,
       Event.SDL_OpenAudioDevice none 0 init_audio_spec 2,
       Event.SDL_GetNumAudioDevices 1 0,
       Event.SDL_CloseAudioDevice 2,
       Event.aoa_forward_audio (some "0123abcd") false true,
       Event.SDL_free (some "0123abcd"),
       Event.aoa_exit] :=
  ⟨(start_no_input_device { env_ok with num_inputs := 0 } player0 none "0123abcd"
      rfl rfl rfl rfl rfl (by decide) rfl).1,
   (start_no_input_device { env_ok with num_inputs := 0 } player0 none "0123abcd"
      rfl rfl rfl rfl rfl (by decide) rfl).2.1⟩

/-- C7, as stated, fails: called with the empty string as serial and every
collaborator succeeding, `audio_forwarding_start` returns success and the
player's serial is the empty string. -/
theorem start_serial_nonempty_counterexample :
    (audio_forwarding_start env_ok player0 (some "")).1 = true ∧
    (audio_forwarding_start env_ok player0 (some "")).2.1.serial = some "" ∧
    ¬ (∃ s, (audio_forwarding_start env_ok player0 (some "")).2.1.serial = some s ∧
        s ≠ "") := by
  refine ⟨by decide, by decide, ?_⟩
  rintro ⟨s, h1, h2⟩
  have h3 : (audio_forwarding_start env_ok player0 (some "")).2.1.serial = some "" := by
    decide
  rw [h3] at h1
  exact h2 (Option.some.inj h1).symm

/-- C7, amended: if `audio_forwarding_start` returns success then the
player's serial is a string, equal to the serial supplied by the caller or,
when none was supplied, to the one read from the remote transport (whose read
returned a positive value); it is empty exactly when that supplied or read
serial is empty. -/
theorem start_serial (env : Env) (player : audio_player) (serial : Option String)
    (h : (audio_forwarding_start env player serial).1 = true) :
    ∃ s, (audio_forwarding_start env player serial).2.1.serial = some s ∧
      (serial = some s ∨ (serial = none ∧ 0 < env.serialno_ret ∧ s = env.serialno_buf)) ∧
      (s = "" ↔ (resolve_serial env serial).1 = some "") := by
  obtain ⟨s, hres, _, _, _, _, _, _, _, h1⟩ := start_success env player serial h
  refine ⟨s, by rw [h1], ?_, ?_⟩
  · cases serial with
    | some s0 =>
      left
      simpa [resolve_serial] using hres
    | none =>
      right
      by_cases hr : env.serialno_ret ≤ 0
      · simp [resolve_serial, hr] at hres
      · simp [resolve_serial, hr] at hres
        exact ⟨rfl, by omega, hres.symm⟩
  · rw [hres]
    simp

/-- Witness of `start_serial`: no serial supplied, the transport answers
"0123abcd". -/
theorem start_serial_witness :
    (audio_forwarding_start env_ok player0 none).1 = true ∧
    ∃ s, (audio_forwarding_start env_ok player0 none).2.1.serial = some s ∧
      ((none : Option String) = some s ∨
        ((none : Option String) = none ∧ 0 < env_ok.serialno_ret ∧
          s = env_ok.serialno_buf)) ∧
      (s = "" ↔ (resolve_serial env_ok none).1 = some "") :=
  ⟨by decide, start_serial env_ok player0 none (by decide)⟩

/-! ## Device selection -/

/-- C8: for every count `n` of capture devices reported,
`open_accessory_audio_input` returns 0 after the enumeration alone, without
any open request, when `n = 0`; otherwise it asks the name of the device of
index `n - 1` and makes exactly one open request, for the capture device of
that name, with 44100 Hz, signed 16-bit little-endian samples, 2 channels, a
buffer of 2048 samples, `audio_input_callback` as callback and the player as
user data, and returns what that request returned. -/
theorem open_accessory_audio_input_calls (env : Env) (player : audio_player) :
    (env.num_inputs = 0 →
      open_accessory_audio_input env player = (0, [Event.SDL_GetNumAudioDevices 1 0]) ∧
      (open_accessory_audio_input env player).2.filter Event.is_open = []) ∧
    (env.num_inputs ≠ 0 →
      open_accessory_audio_input env player =
        (env.open_input,
          [Event.SDL_GetNumAudioDevices 1 env.num_inputs,
           Event.SDL_GetAudioDeviceName (env.num_inputs - 1) 1
             (env.device_name (env.num_inputs - 1)),
           Event.SDL_OpenAudioDevice (env.device_name (env.num_inputs - 1)) 1
             { freq := 44100, format := AUDIO_S16LSB, channels := 2, silence := 0,
               samples := 2048, size := 0,
               callback := some Callback.audio_input_callback,
               userdata := some player.addr }
             env.open_input]) ∧
      (open_accessory_audio_input env player).2.filter Event.is_open =
        [Event.SDL_OpenAudioDevice (env.device_name (env.num_inputs - 1)) 1
           { freq := 44100, format := AUDIO_S16LSB, channels := 2, silence := 0,
             samples := 2048, size := 0,
             callback := some Callback.audio_input_callback,
             userdata := some player.addr }
           env.open_input]) := by
  constructor
  · intro h
    simp [open_input_none env player h, Event.is_open]
  · intro h
    simp [open_input_some env player h, Event.is_open, input_spec, init_audio_spec, SDL_zero]

/-- Witness of `open_accessory_audio_input_calls`: with two capture devices,
"mic" then "phone", the one opened is "phone"; with none, nothing is opened. -/
theorem open_accessory_audio_input_calls_witness :
    open_accessory_audio_input { env_ok with num_inputs := 0 } player0 =
      (0, [Event.SDL_GetNumAudioDevices 1 0]) ∧
    open_accessory_audio_input env_ok player0 =
      (3,
        [Event.SDL_GetNumAudioDevices 1 2,
         Event.SDL_GetAudioDeviceName 1 1 (some "phone"),
         Event.SDL_OpenAudioDevice (some "phone") 1
           { freq := 44100, format := 0x8010, channels := 2, silence := 0,
             samples := 2048, size := 0,
             callback := some Callback.audio_input_callback,
             userdata := some 4096 } 3]) :=
  ⟨((open_accessory_audio_input_calls { env_ok with num_inputs := 0 } player0).1 rfl).1,
   ((open_accessory_audio_input_calls env_ok player0).2 (by decide)).1⟩

/-! ## The gate in a sequence of callback invocations -/

theorem audio_input_callback_fail (player : audio_player) (stream : List Nat) (r : Int)
    (h : r ≠ 0) :
    audio_input_callback player stream r =
      (player, [Event.SDL_QueueAudio player.output_device stream r]) := by
  simp [audio_input_callback, h]

theorem audio_input_callback_first (player : audio_player) (stream : List Nat)
    (h : player.output_playing = 0) :
    audio_input_callback player stream 0 =
      ({ player with output_playing := 1 },
        [Event.SDL_QueueAudio player.output_device stream 0, Event.SDL_AtomicCAS 0 1 true,
         Event.SDL_PauseAudioDevice player.output_device 0]) := by
  simp [audio_input_callback, SDL_AtomicCAS, h]

theorem audio_input_callback_later (player : audio_player) (stream : List Nat)
    (h : player.output_playing = 1) :
    audio_input_callback player stream 0 =
      (player,
        [Event.SDL_QueueAudio player.output_device stream 0,
         Event.SDL_AtomicCAS 0 1 false]) := by
  obtain ⟨a, s, i, o, g⟩ := player
  simp only at h
  subst h
  simp [audio_input_callback, SDL_AtomicCAS]

theorem run_callbacks_latched (inv : List (List Nat × Int)) :
    ∀ player : audio_player, player.output_playing = 1 →
      (run_callbacks player inv).map gate_and_pauses = List.replicate inv.length (1, []) := by
  induction inv with
  | nil => intro player _; rfl
  | cons x rest ih =>
    intro player h
    obtain ⟨stream, r⟩ := x
    by_cases hr : r = 0
    · subst hr
      simp [run_callbacks, audio_input_callback_later player stream h, gate_and_pauses,
        Event.is_pause, h, List.replicate_succ]
      exact ih player h
    · simp [run_callbacks, audio_input_callback_fail player stream r hr, gate_and_pauses,
        Event.is_pause, h, List.replicate_succ]
      exact ih player h

theorem run_callbacks_all_fail (inv : List (List Nat × Int)) :
    ∀ player : audio_player, player.output_playing = 0 → (∀ x ∈ inv, x.2 ≠ 0) →
      (run_callbacks player inv).map gate_and_pauses = List.replicate inv.length (0, []) := by
  induction inv with
  | nil => intro player _ _; rfl
  | cons x rest ih =>
    intro player h hall
    obtain ⟨stream, r⟩ := x
    have hr : r ≠ 0 := hall (stream, r) (List.mem_cons_self _ _)
    simp [run_callbacks, audio_input_callback_fail player stream r hr, gate_and_pauses,
      Event.is_pause, h, List.replicate_succ]
    exact ih player h (fun x hx => hall x (List.mem_cons_of_mem _ hx))

theorem run_callbacks_first_success (pre : List (List Nat × Int)) (stream : List Nat)
    (post : List (List Nat × Int)) :
    ∀ player : audio_player, player.output_playing = 0 → (∀ x ∈ pre, x.2 ≠ 0) →
      (run_callbacks player (pre ++ (stream, 0) :: post)).map gate_and_pauses =
        List.replicate pre.length (0, []) ++
          (1, [Event.SDL_PauseAudioDevice player.output_device 0]) ::
          List.replicate post.length (1, []) := by
  induction pre with
  | nil =>
    intro player h _
    simp [run_callbacks, audio_input_callback_first player stream h, gate_and_pauses,
      Event.is_pause]
    exact run_callbacks_latched post { player with output_playing := 1 } rfl
  | cons x rest ih =>
    intro player h hall
    obtain ⟨st, r⟩ := x
    have hr : r ≠ 0 := hall (st, r) (List.mem_cons_self _ _)
    simp [run_callbacks, audio_input_callback_fail player st r hr, gate_and_pauses,
      Event.is_pause, h, List.replicate_succ]
    exact ih player h (fun x hx => hall x (List.mem_cons_of_mem _ hx))

/-- C3: in a sequence of invocations of `audio_input_callback` on a player
whose gate starts at 0, whatever the enqueue outcomes: if every enqueue fails,
the gate is 0 after every invocation and none unpauses the output device;
otherwise the invocations before the first successful enqueue leave the gate
at 0 and issue nothing, that invocation issues the one unpause of the output
device and leaves the gate at 1, and every later invocation leaves the gate at
1 and issues nothing. For the outcomes fail, success, success the gates are 0,
1, 1 and the unpause is issued by the second invocation only. -/
theorem callback_sequence_gate (player : audio_player) (h0 : player.output_playing = 0) :
    (∀ inv : List (List Nat × Int), (∀ x ∈ inv, x.2 ≠ 0) →
      (run_callbacks player inv).map gate_and_pauses = List.replicate inv.length (0, [])) ∧
    (∀ (pre : List (List Nat × Int)) (stream : List Nat) (post : List (List Nat × Int)),
      (∀ x ∈ pre, x.2 ≠ 0) →
      (run_callbacks player (pre ++ (stream, 0) :: post)).map gate_and_pauses =
        List.replicate pre.length (0, []) ++
          (1, [Event.SDL_PauseAudioDevice player.output_device 0]) ::
          List.replicate post.length (1, [])) ∧
    (∀ (s1 s2 s3 : List Nat) (r : Int), r ≠ 0 →
      (run_callbacks player [(s1, r), (s2, 0), (s3, 0)]).map gate_and_pauses =
        [(0, []), (1, [Event.SDL_PauseAudioDevice player.output_device 0]), (1, [])]) := by
  refine ⟨fun inv hall => run_callbacks_all_fail inv player h0 hall,
    fun pre stream post hall => run_callbacks_first_success pre stream post player h0 hall,
    ?_⟩
  intro s1 s2 s3 r hr
  have h := run_callbacks_first_success [(s1, r)] s2 [(s3, 0)] player h0
    (by intro x hx; simp at hx; subst hx; exact hr)
  simpa using h

/-- Witness of `callback_sequence_gate`: the three invocations of scenario D
on a player whose output device has handle 2. -/
theorem callback_sequence_gate_witness :
    (run_callbacks { player0 with output_device := 2, input_device := 3 }
        [([1, 2], -1), ([3, 4], 0), ([5, 6], 0)]).map gate_and_pauses =
      [(0, []), (1, [Event.SDL_PauseAudioDevice 2 0]), (1, [])] :=
  (callback_sequence_gate { player0 with output_device := 2, input_device := 3 } rfl).2.2
    [1, 2] [3, 4] [5, 6] (-1) (by decide)

/-- C10: whatever the player structure held before (a gate left at 1 by an
earlier session included), a successful `audio_player_open` leaves the gate
at 0; a successful `audio_forwarding_start` leaves the gate at 0, resets it
before its only pause or unpause call, the unpause of the input device at the
very end; and in the invocations of the callback that follow, the first one
whose enqueue succeeds unpauses the output device. -/
theorem start_resets_gate :
    (∀ (env : Env) (player : audio_player),
      (audio_player_open env player).1 = true →
      (audio_player_open env player).2.1.output_playing = 0) ∧
    (∀ (env : Env) (player : audio_player) (serial : Option String),
      (audio_forwarding_start env player serial).1 = true →
      (audio_forwarding_start env player serial).2.1.output_playing = 0 ∧
      (∃ before, (audio_forwarding_start env player serial).2.2 =
          before ++ [Event.SDL_AtomicSet 0,
            Event.SDL_PauseAudioDevice
              (audio_forwarding_start env player serial).2.1.input_device 0] ∧
        before.filter Event.is_pause = []) ∧
      (∀ (pre : List (List Nat × Int)) (stream : List Nat) (post : List (List Nat × Int)),
        (∀ x ∈ pre, x.2 ≠ 0) →
        (run_callbacks (audio_forwarding_start env player serial).2.1
            (pre ++ (stream, 0) :: post)).map gate_and_pauses =
          List.replicate pre.length (0, []) ++
            (1, [Event.SDL_PauseAudioDevice
                  (audio_forwarding_start env player serial).2.1.output_device 0]) ::
            List.replicate post.length (1, []))) := by
  constructor
  · intro env player h
    rcases audio_player_open_cases env player with
      ⟨_, h2⟩ | ⟨_, _, h2⟩ | ⟨_, _, _, h2⟩ | ⟨_, _, _, h2⟩
    · rw [h2] at h; simp at h
    · rw [h2] at h; simp at h
    · rw [h2] at h; simp at h
    · rw [h2]
  · intro env player serial h
    obtain ⟨s, hres, _, _, _, _, ho, hn, hi, h1⟩ := start_success env player serial h
    refine ⟨by rw [h1], ?_, ?_⟩
    · refine ⟨Event.aoa_init true :: (resolve_serial env serial).2 ++
        [Event.SDL_strdup s (some s),
         Event.aoa_forward_audio (some s) true true,
         Event.SDL_InitSubSystem SDL_INIT_AUDIO 0,
         Event.SDL_Delay 2000,
         Event.SDL_OpenAudioDevice none 0 init_audio_spec env.open_output,
         Event.SDL_GetNumAudioDevices 1 env.num_inputs,
         Event.SDL_GetAudioDeviceName (env.num_inputs - 1) 1
           (env.device_name (env.num_inputs - 1)),
         Event.SDL_OpenAudioDevice (env.device_name (env.num_inputs - 1)) 1
           (input_spec player) env.open_input], ?_, ?_⟩
      · rw [h1]; simp
      · rcases resolve_serial_calls env serial with hc | hc <;> simp [hc, Event.is_pause]
    · intro pre stream post hall
      exact run_callbacks_first_success pre stream post _ (by rw [h1]) hall

/-- Witness of `start_resets_gate`: a second session on the player of a
first one. The first session is started, its callback runs once with a
successful enqueue (gate 1), it is stopped; the second start succeeds and
leaves the gate at 0, and the first successful enqueue after it unpauses the
output device again. -/
theorem start_resets_gate_witness :
    (run_callbacks (audio_forwarding_start env_ok player0 (some "ABC123")).2.1
      [([1, 2], 0)]).map gate_and_pauses = [(1, [Event.SDL_PauseAudioDevice 2 0])] ∧
    (audio_forwarding_start env_ok
      { (audio_forwarding_start env_ok player0 (some "ABC123")).2.1 with output_playing := 1 }
      (some "ABC123")).1 = true ∧
    (audio_forwarding_start env_ok
      { (audio_forwarding_start env_ok player0 (some "ABC123")).2.1 with output_playing := 1 }
      (some "ABC123")).2.1.output_playing = 0 ∧
    (run_callbacks
        (audio_forwarding_start env_ok
          { (audio_forwarding_start env_ok player0 (some "ABC123")).2.1 with
            output_playing := 1 }
          (some "ABC123")).2.1
        [([7], -1), ([8], 0), ([9], 0)]).map gate_and_pauses =
      [(0, []), (1, [Event.SDL_PauseAudioDevice 2 0]), (1, [])] :=
  ⟨by decide, by decide,
   (start_resets_gate.2 env_ok
      { (audio_forwarding_start env_ok player0 (some "ABC123")).2.1 with output_playing := 1 }
      (some "ABC123") (by decide)).1,
   (start_resets_gate.2 env_ok
      { (audio_forwarding_start env_ok player0 (some "ABC123")).2.1 with output_playing := 1 }
      (some "ABC123") (by decide)).2.2 [([7], -1)] [8] [([9], 0)] (by decide)⟩

/-! ## The gate under concurrent invocations -/

/-- An invocation that runs alone makes the calls of `audio_input_callback`
and leaves the player it leaves. -/
theorem race_single_invocation (player : audio_player) (stream : List Nat) (r : Int) :
    (race_run [(stream, r)] (race_init player [(stream, r)]) [0, 0, 0]).pcs = [Pc.returned] ∧
    ((race_run [(stream, r)] (race_init player [(stream, r)]) [0, 0, 0]).player,
      (race_run [(stream, r)] (race_init player [(stream, r)]) [0, 0, 0]).log) =
      audio_input_callback player stream r := by
  by_cases hr : r = 0
  · by_cases hg : player.output_playing = 0
    · simp [race_run, race_init, race_step, audio_input_callback, SDL_AtomicCAS, hr, hg]
    · simp [race_run, race_init, race_step, audio_input_callback, SDL_AtomicCAS, hr, hg]
  · simp [race_run, race_init, race_step, audio_input_callback, SDL_AtomicCAS, hr]

end Audio
